import Mathlib

/-!
Verification of the PhishGuard URL analysis core: the feature extractor
(src/app/features.py), the rule-based risk scorer (src/app/scorer.py) and the
verdict composition step of the API endpoint (src/app/main.py, analyze_url).

Python strings are modelled through their character lists; Python floats are
modelled as rationals (the arithmetic the code performs on them is exact at
the granularity the claims speak about); Python ints are modelled as ℤ.
Python floor division `//` by a positive constant coincides with ℤ division
here (Euclidean), and every use in the source has a non-negative dividend.
The stdlib boundary (urllib.parse.urlparse) is an explicit input, `ParsedUrl`;
the external WHOIS/DNS signals and the Shannon-entropy value (computed with a
transcendental log2 in the source) are likewise explicit inputs.
-/

namespace PhishGuard

/-! ### String helpers (Python str operations, on character lists) -/

/-- Python list membership of a leading segment: `pat` begins `l`. -/
def leadMatch : List Char → List Char → Bool
  | [], _ => true
  | _ :: _, [] => false
  | p :: ps, c :: cs => p == c && leadMatch ps cs

/-- Python substring containment scan: some suffix of `l` begins with `pat`. -/
def infixMatch (pat : List Char) : List Char → Bool
  | [] => pat.isEmpty
  | c :: cs => leadMatch pat (c :: cs) || infixMatch pat cs

/-- Python `pat in s` (contiguous substring containment). -/
def strContains (s pat : String) : Bool := infixMatch pat.data s.data

/-- Python `s.startswith(pat)`. -/
def strStarts (s pat : String) : Bool := leadMatch pat.data s.data

/-- Python `s.count(c)` for a single character, as an integer. -/
def countChar (s : String) (c : Char) : ℤ := ((s.data.filter (fun x => x == c)).length : ℤ)

/-- Python `s.lower()` (ASCII case folding suffices for the data involved). -/
def lowerStr (s : String) : String := String.mk (s.data.map Char.toLower)

/-- Python `s.strip()`. -/
def stripStr (s : String) : String :=
  String.mk (((s.data.dropWhile Char.isWhitespace).reverse.dropWhile Char.isWhitespace).reverse)

/-- Accumulator for `splitCh`; mirrors Python `str.split(sep)` exactly,
including the singleton `[""]` result on the empty string. -/
def splitChAux (sep : Char) : List Char → List Char → List String
  | [], acc => [String.mk acc.reverse]
  | c :: cs, acc =>
      if c == sep then String.mk acc.reverse :: splitChAux sep cs []
      else splitChAux sep cs (c :: acc)

/-- Python `s.split(sep)` for a one-character separator. -/
def splitCh (sep : Char) (s : String) : List String := splitChAux sep s.data []

/-- Python `".".join(parts)`. -/
def joinDot : List String → String
  | [] => ""
  | [s] => s
  | s :: rest => s ++ "." ++ joinDot rest

/-- Python `", ".join(parts)`. -/
def joinComma : List String → String
  | [] => ""
  | [s] => s
  | s :: rest => s ++ ", " ++ joinComma rest

/-! ### Constant tables (src/app/features.py, lines 12–47) -/

/-- features.py lines 12–20. -/
def HIGH_RISK_TLDS : List String :=
  ["tk", "ml", "ga", "cf", "gq",
   "xyz", "top", "icu", "buzz", "click",
   "pw", "date", "download", "racing",
   "win", "loan", "party", "stream",
   "review", "country", "science",
   "work", "trade", "link", "online",
   "site", "website", "live", "shop"]

/-- features.py lines 22–28. -/
def SUSPICIOUS_KEYWORDS : List String :=
  ["login", "signin", "verify", "secure", "account", "update",
   "confirm", "bank", "paypal", "apple", "amazon", "google",
   "microsoft", "ebay", "netflix", "password", "credential",
   "billing", "invoice", "suspended", "urgent", "alert",
   "webscr", "validate", "auth", "recover"]

/-- features.py lines 30–36; a Python dict iterated in insertion order. -/
def BRAND_DOMAINS : List (String × String) :=
  [("paypal", "paypal"), ("apple", "apple"), ("google", "google"),
   ("microsoft", "microsoft"), ("amazon", "amazon"), ("ebay", "ebay"),
   ("netflix", "netflix"), ("facebook", "facebook"), ("instagram", "instagram"),
   ("twitter", "twitter"), ("chase", "chase"), ("wellsfargo", "wellsfargo"),
   ("bankofamerica", "bankofamerica")]

/-- features.py line 47. -/
def MULTI_TLDS : List String :=
  ["co.uk", "co.nz", "co.jp", "com.au", "com.br", "org.uk", "net.au"]

/-! ### Lexical analyzer (features.py lines 38–72, 101–133) -/

/-- features.py lines 39–42: the LEET_MAP character translation table. -/
def leetChar (c : Char) : Char :=
  if c == '0' then 'o' else if c == '1' then 'l' else if c == '3' then 'e'
  else if c == '4' then 'a' else if c == '5' then 's' else if c == '6' then 'g'
  else if c == '7' then 't' else if c == '8' then 'b' else c

/-- features.py lines 44–45: `_normalize_leet`. -/
def normalizeLeet (s : String) : String := String.mk (s.data.map leetChar)

/-- One 1–3 digit group of the IPv4 pattern. -/
def isDigitGroup (s : String) : Bool :=
  decide (1 ≤ s.data.length) && decide (s.data.length ≤ 3) && s.data.all Char.isDigit

/-- features.py line 101: `re.match(r"^\d{1,3}(\.\d{1,3}){3}$", hostname)` —
exactly four dot-separated groups of 1–3 digits (no octet range check). -/
def matchesIpPattern (hostname : String) : Bool :=
  let parts := splitCh '.' hostname
  decide (parts.length = 4) && parts.all isDigitGroup

/-- Hexadecimal digit as in the character class `[0-9a-fA-F]`. -/
def isHexDigit (c : Char) : Bool :=
  c.isDigit || ('a' ≤ c && c ≤ 'f') || ('A' ≤ c && c ≤ 'F')

/-- features.py line 104: `re.search(r"%[0-9a-fA-F]{2}", url)`. -/
def hasHexTriple : List Char → Bool
  | '%' :: c1 :: c2 :: rest => (isHexDigit c1 && isHexDigit c2) || hasHexTriple (c1 :: c2 :: rest)
  | _ :: rest => hasHexTriple rest
  | [] => false

/-- features.py lines 112–117: keywords found in the raw lowercased URL, then
those found only in the leet-normalized URL appended (deduplicated). -/
def matchedKeywords (url_lower url_normalized : String) : List String :=
  let base := SUSPICIOUS_KEYWORDS.filter (fun kw => strContains url_lower kw)
  SUSPICIOUS_KEYWORDS.foldl
    (fun acc kw =>
      if strContains url_normalized kw && !(acc.contains kw) then acc ++ [kw] else acc)
    base

/-- features.py lines 120–133: the brand-impersonation loop. The Python loop
breaks at the first brand matching any of the three checks; as a boolean
result that is `List.any` of the disjunction of the three checks. -/
def brandImpersonation (url_lower domain : String) : Bool :=
  let domain_normalized := normalizeLeet domain
  let url_normalized := normalizeLeet url_lower
  BRAND_DOMAINS.any (fun bp =>
    (strContains url_lower bp.1 && domain != bp.2) ||
    (domain_normalized == bp.2 && domain != bp.2) ||
    (strContains url_normalized bp.1 && domain != bp.2 && domain_normalized != bp.2))

/-! ### Domain parser (features.py lines 50–65) -/

/-- features.py lines 50–65: `_parse_domain_parts`. Returns
(subdomain, domain, tld). Python negative indexing `parts[-k]` is rendered
with `getD (n - k)`; the branch guards of the source make every index
in range, and `".".join` of an empty slice is `""`. -/
def parseDomainParts (hostname : String) : String × String × String :=
  let parts := splitCh '.' (lowerStr hostname)
  if parts.length = 1 then ("", hostname, "")
  else if parts.length = 2 then ("", parts.getD 0 "", parts.getD 1 "")
  else
    let n := parts.length
    let possible_multi := parts.getD (n - 2) "" ++ "." ++ parts.getD (n - 1) ""
    if MULTI_TLDS.contains possible_multi then
      (joinDot (parts.take (n - 3)), parts.getD (n - 3) "", possible_multi)
    else
      (joinDot (parts.take (n - 2)), parts.getD (n - 2) "", parts.getD (n - 1) "")

/-! ### Feature extractor (features.py lines 75–199) -/

/-- The result of `urllib.parse.urlparse` on the processed URL — the stdlib
boundary of the extractor. `hostname` is `None` when the parse yields no
host (the property lowercases any host it does yield); `port` is the
explicit port, if present. -/
structure ParsedUrl where
  scheme : String
  hostname : Option String
  path : String
  query : String
  port : Option ℤ
deriving DecidableEq

/-- The fixed-schema feature record built by `extract_features`
(features.py lines 164–187). Python stores the booleans as 0/1 ints; they
are `Bool` here and the scorer reads their truthiness. -/
structure FeatureRecord where
  url_length : ℤ
  path_length : ℤ
  num_dots : ℤ
  num_hyphens : ℤ
  num_digits_in_domain : ℤ
  num_slashes : ℤ
  num_query_params : ℤ
  num_subdomains : ℤ
  subdomain_count : ℤ
  domain_length : ℤ
  url_entropy : ℚ
  suspicious_keyword_count : ℤ
  domain_age_days : ℤ
  has_https : Bool
  has_ip_address : Bool
  has_at_symbol : Bool
  has_double_slash : Bool
  has_hex_encoding : Bool
  tld_is_high_risk : Bool
  brand_impersonation : Bool
  dns_resolves : Bool
  has_non_standard_port : Bool
deriving DecidableEq

/-- The metadata record built by `extract_features` (features.py lines 189–197). -/
structure MetaRecord where
  protocol : String
  hostname : String
  tld : String
  domain : String
  subdomain : String
  suspicious_keywords : List String
  domain_created : String
deriving DecidableEq

/-- Key splitting of one `k=v` field of a query string (first `=`). -/
def splitFirstEqAux : List Char → List Char → Option (String × String)
  | [], _ => none
  | c :: cs, acc =>
      if c == '=' then some (String.mk acc.reverse, String.mk cs)
      else splitFirstEqAux cs (c :: acc)

/-- Order-preserving deduplication. -/
def dedupKeep : List String → List String → List String
  | [], acc => acc.reverse
  | k :: ks, acc => if acc.contains k then dedupKeep ks acc else dedupKeep ks (k :: acc)

/-- features.py line 100: `len(urllib.parse.parse_qs(query))` — the number of
distinct keys carrying a non-empty value. Percent-decoding of keys is
abstracted (keys are taken verbatim); no claim depends on this field. -/
def parseQsKeys (query : String) : List String :=
  let fields := (splitCh '&' query).filter (fun fd => !(fd == ""))
  let pairs := fields.filterMap (fun fd => splitFirstEqAux fd.data [])
  dedupKeep ((pairs.filter (fun kv => !(kv.2 == ""))).map (fun kv => kv.1)) []

/-- features.py lines 75–199: `extract_features`, from the processed URL on.
`parsed` is the urlparse result on the URL after the strip/prefix
preprocessing of lines 76–78. The WHOIS block (lines 135–151) and the DNS
block (lines 153–160) are external collaborators whose whole effect is the
`domain_age_days` / `domain_created` / `dns_resolves` values — both blocks
swallow every exception, so they are inputs here, as is the rounded
Shannon-entropy float of line 109. Note line 82: a missing hostname is
silently defaulted to `""`; no error is raised on this path. -/
def extract_features (url0 : String) (parsed : ParsedUrl) (url_entropy : ℚ)
    (domain_age_days : ℤ) (domain_created : String) (dns_resolves : Bool) :
    FeatureRecord × MetaRecord :=
  let url1 := stripStr url0
  let url := if strStarts url1 "http://" || strStarts url1 "https://" then url1
             else "http://" ++ url1
  let scheme := lowerStr parsed.scheme
  let hostname := parsed.hostname.getD ""
  let path := parsed.path
  let query := parsed.query
  let sdt := parseDomainParts hostname
  let subdomain := sdt.1
  let domain := sdt.2.1
  let tld := sdt.2.2
  let url_lower := lowerStr url
  let domain_normalized := normalizeLeet domain
  let url_normalized := normalizeLeet url_lower
  let has_https := scheme == "https"
  let url_length := (url.data.length : ℤ)
  let path_length := (path.data.length : ℤ)
  let num_dots := countChar url '.'
  let num_hyphens := countChar domain '-' + countChar subdomain '-'
  let num_digits_in_domain := ((domain.data.filter Char.isDigit).length : ℤ)
  let num_slashes := countChar path '/'
  let num_query_params := ((parseQsKeys query).length : ℤ)
  let has_ip_address := matchesIpPattern hostname
  let has_at_symbol := strContains url "@"
  let has_double_slash := strContains path "//"
  let has_hex_encoding := hasHexTriple url.data
  let subdomain_parts :=
    if subdomain == "" then [] else (splitCh '.' subdomain).filter (fun s => !(s == ""))
  let num_subdomains := (subdomain_parts.length : ℤ)
  let subdomain_count := num_subdomains
  let domain_length := (domain.data.length : ℤ)
  let tld_is_high_risk := HIGH_RISK_TLDS.contains tld
  let matched_keywords := matchedKeywords url_lower url_normalized
  let suspicious_keyword_count := (matched_keywords.length : ℤ)
  let brand_impersonation_b := brandImpersonation url_lower domain
  let has_non_standard_port :=
    match parsed.port with
    | none => false
    | some p => !(p == 0) && !(p == 80) && !(p == 443)
  ({ url_length := url_length, path_length := path_length, num_dots := num_dots,
     num_hyphens := num_hyphens, num_digits_in_domain := num_digits_in_domain,
     num_slashes := num_slashes, num_query_params := num_query_params,
     num_subdomains := num_subdomains, subdomain_count := subdomain_count,
     domain_length := domain_length, url_entropy := url_entropy,
     suspicious_keyword_count := suspicious_keyword_count,
     domain_age_days := domain_age_days, has_https := has_https,
     has_ip_address := has_ip_address, has_at_symbol := has_at_symbol,
     has_double_slash := has_double_slash, has_hex_encoding := has_hex_encoding,
     tld_is_high_risk := tld_is_high_risk, brand_impersonation := brand_impersonation_b,
     dns_resolves := dns_resolves, has_non_standard_port := has_non_standard_port },
   { protocol := scheme, hostname := hostname, tld := tld, domain := domain,
     subdomain := subdomain, suspicious_keywords := matched_keywords,
     domain_created := domain_created })

/-- main.py lines 96–99 wrap `extract_features` in try/except. Past the
urlparse boundary no statement of `extract_features` can raise (the WHOIS and
DNS lookups swallow their own exceptions), so the checked extraction always
succeeds. -/
def extractFeaturesChecked (url0 : String) (parsed : ParsedUrl) (url_entropy : ℚ)
    (domain_age_days : ℤ) (domain_created : String) (dns_resolves : Bool) :
    Except String (FeatureRecord × MetaRecord) :=
  Except.ok (extract_features url0 parsed url_entropy domain_age_days domain_created dns_resolves)

/-! ### Risk scoring engine (src/app/scorer.py) -/

/-- One explainable finding appended by a scoring rule (scorer.py flag dicts). -/
structure Flag where
  severity : String
  title : String
  description : String
  feature : String
deriving DecidableEq

/-- The result of `compute_risk_breakdown` (scorer.py lines 250–257). -/
structure RiskBreakdown where
  url_score : ℤ
  domain_score : ℤ
  content_score : ℤ
  behavioral_score : ℤ
  total : ℤ
  flags : List Flag
deriving DecidableEq

/-- scorer.py lines 26–33: the no-HTTPS rule, as (points, appended flags). -/
def httpsRule (f : FeatureRecord) : ℤ × List Flag :=
  if !f.has_https then
    (8, [{severity := "red", title := "No HTTPS",
          description := "The URL uses unencrypted HTTP. Phishing pages frequently avoid HTTPS.",
          feature := "has_https"}])
  else (0, [])

/-- scorer.py lines 35–51: the URL-length tiers. -/
def urlLengthRule (f : FeatureRecord) : ℤ × List Flag :=
  if f.url_length > 100 then
    (min 10 ((f.url_length - 100) / 20 * 3 + 3),
     [{severity := "red", title := "Excessively Long URL",
       description := "URL is " ++ toString f.url_length ++
         " characters. Attackers pad URLs to confuse users.",
       feature := "url_length"}])
  else if f.url_length > 75 then
    (3, [{severity := "yellow", title := "Moderately Long URL",
          description := "URL length (" ++ toString f.url_length ++ " chars) is above average.",
          feature := "url_length"}])
  else (0, [])

/-- scorer.py lines 53–60. -/
def ipRule (f : FeatureRecord) : ℤ × List Flag :=
  if f.has_ip_address then
    (10, [{severity := "red", title := "IP Address Used Instead of Domain",
           description := "IP-based URLs are a strong phishing indicator — legitimate services use domain names.",
           feature := "has_ip_address"}])
  else (0, [])

/-- scorer.py lines 62–71: hyphen tiers; the 1–2 tier adds points without a flag. -/
def hyphenRule (f : FeatureRecord) : ℤ × List Flag :=
  if f.num_hyphens ≥ 3 then
    (5, [{severity := "yellow", title := "Excessive Hyphens in Domain",
          description := "Domain contains " ++ toString f.num_hyphens ++
            " hyphens — common in impersonation attacks.",
          feature := "num_hyphens"}])
  else if f.num_hyphens ≥ 1 then (2, [])
  else (0, [])

/-- scorer.py lines 73–80. -/
def atRule (f : FeatureRecord) : ℤ × List Flag :=
  if f.has_at_symbol then
    (7, [{severity := "red", title := "@ Symbol in URL",
          description := "The @ symbol causes browsers to ignore everything before it — classic redirect trick.",
          feature := "has_at_symbol"}])
  else (0, [])

/-- scorer.py lines 82–89. -/
def doubleSlashRule (f : FeatureRecord) : ℤ × List Flag :=
  if f.has_double_slash then
    (4, [{severity := "yellow", title := "Double Slash in Path",
          description := "Double slashes in paths can be used to obscure redirect targets.",
          feature := "has_double_slash"}])
  else (0, [])

/-- scorer.py lines 91–98. -/
def hexRule (f : FeatureRecord) : ℤ × List Flag :=
  if f.has_hex_encoding then
    (4, [{severity := "yellow", title := "Hex / Percent Encoding Detected",
          description := "Percent-encoded characters can be used to bypass URL filters.",
          feature := "has_hex_encoding"}])
  else (0, [])

/-- scorer.py lines 100–109: subdomain tiers; the =2 tier adds points without a flag. -/
def subdomainRule (f : FeatureRecord) : ℤ × List Flag :=
  if f.num_subdomains ≥ 3 then
    (6, [{severity := "red", title := "Excessive Subdomains",
          description := toString f.num_subdomains ++
            " subdomain levels detected. Phishers use deep subdomains to appear legitimate (e.g. paypal.com.evil.tk).",
          feature := "num_subdomains"}])
  else if f.num_subdomains = 2 then (3, [])
  else (0, [])

/-- scorer.py lines 111–118. -/
def portRule (f : FeatureRecord) : ℤ × List Flag :=
  if f.has_non_standard_port then
    (5, [{severity := "yellow", title := "Non-Standard Port",
          description := "Legitimate websites rarely use non-standard ports. This may indicate a malicious server.",
          feature := "has_non_standard_port"}])
  else (0, [])

/-- scorer.py lines 125–132. -/
def tldRule (f : FeatureRecord) (m : MetaRecord) : ℤ × List Flag :=
  if f.tld_is_high_risk then
    (12, [{severity := "red", title := "High-Abuse TLD",
           description := "." ++ m.tld ++
             " is among the top TLDs for phishing abuse (Spamhaus / ICANN data).",
           feature := "tld_is_high_risk"}])
  else (0, [])

/-- scorer.py lines 134–141. -/
def brandRule (f : FeatureRecord) : ℤ × List Flag :=
  if f.brand_impersonation then
    (15, [{severity := "red", title := "Brand Impersonation",
           description := "A well-known brand name appears in the URL but the domain does not match the official brand domain.",
           feature := "brand_impersonation"}])
  else (0, [])

/-- scorer.py lines 143–182: domain-age tiers, an if/elif chain — exactly one
bucket fires, the first whose guard holds. -/
def ageRule (f : FeatureRecord) : ℤ × List Flag :=
  let age := f.domain_age_days
  if age = -1 then
    (5, [{severity := "yellow", title := "WHOIS Unavailable",
          description := "Domain age could not be determined. Privacy-protected or newly created domains are common in phishing campaigns.",
          feature := "domain_age_days"}])
  else if age < 7 then
    (12, [{severity := "red", title := "Brand-New Domain (< 7 days)",
           description := "Domain created " ++ toString age ++
             " day(s) ago. Phishing domains are often registered days before an attack.",
           feature := "domain_age_days"}])
  else if age < 30 then
    (8, [{severity := "red", title := "Very New Domain (< 30 days)",
          description := "Domain is only " ++ toString age ++
            " days old. Most legitimate sites have domains older than a year.",
          feature := "domain_age_days"}])
  else if age < 180 then
    (3, [{severity := "yellow", title := "Relatively New Domain",
          description := "Domain is " ++ toString age ++ " days old (" ++ toString (age / 30) ++
            " months). Established services typically have older domains.",
          feature := "domain_age_days"}])
  else
    (0, [{severity := "green", title := "Established Domain",
          description := "Domain has been registered for " ++ toString age ++
            " days — a positive indicator.",
          feature := "domain_age_days"}])

/-- scorer.py lines 189–213: keyword-count tiers. -/
def keywordRule (f : FeatureRecord) (m : MetaRecord) : ℤ × List Flag :=
  let kw_count := f.suspicious_keyword_count
  if kw_count ≥ 3 then
    (10, [{severity := "red", title := "Multiple Credential-Themed Keywords",
           description := toString kw_count ++ " suspicious keywords detected (e.g. " ++
             joinComma (m.suspicious_keywords.take 3) ++
             "). This strongly suggests a credential-harvesting page.",
           feature := "suspicious_keyword_count"}])
  else if kw_count = 2 then
    (6, [{severity := "yellow", title := "Suspicious Keywords",
          description := "Keywords found: " ++ joinComma m.suspicious_keywords ++ ".",
          feature := "suspicious_keyword_count"}])
  else if kw_count = 1 then
    (3, [{severity := "yellow", title := "One Suspicious Keyword",
          description := "Keyword found: " ++ joinComma m.suspicious_keywords ++ ".",
          feature := "suspicious_keyword_count"}])
  else (0, [])

/-- scorer.py lines 215–222. The source threshold is the float literal 5.0 and
the source renders the entropy with two decimals; the rendering is abstracted
by `toString`. -/
def entropyRule (f : FeatureRecord) : ℤ × List Flag :=
  if f.url_entropy > 5 then
    (5, [{severity := "yellow", title := "High URL Entropy",
          description := "Entropy of " ++ toString f.url_entropy ++
            " bits. Randomly generated or encoded paths suggest automation.",
          feature := "url_entropy"}])
  else (0, [])

/-- scorer.py lines 229–236. -/
def dnsRule (f : FeatureRecord) : ℤ × List Flag :=
  if !f.dns_resolves then
    (5, [{severity := "yellow", title := "DNS Does Not Resolve",
          description := "The domain could not be resolved via DNS. May be a sinkhole, inactive phishing domain, or typo.",
          feature := "dns_resolves"}])
  else (0, [])

/-- scorer.py lines 238–244: informational flag, no points. -/
def httpsInfoFlags (f : FeatureRecord) : List Flag :=
  if f.has_https then
    [{severity := "green", title := "HTTPS Enabled",
      description := "Connection is encrypted. Note: phishing sites can also use HTTPS via free certificates.",
      feature := "has_https"}]
  else []

/-- URL-structure flags in rule-firing order (scorer.py lines 22–119). -/
def urlFlags (f : FeatureRecord) : List Flag :=
  (httpsRule f).2 ++ (urlLengthRule f).2 ++ (ipRule f).2 ++ (hyphenRule f).2 ++
  (atRule f).2 ++ (doubleSlashRule f).2 ++ (hexRule f).2 ++ (subdomainRule f).2 ++
  (portRule f).2

/-- Domain-intelligence flags in rule-firing order (scorer.py lines 122–183). -/
def domainFlags (f : FeatureRecord) (m : MetaRecord) : List Flag :=
  (tldRule f m).2 ++ (brandRule f).2 ++ (ageRule f).2

/-- Content-analysis flags in rule-firing order (scorer.py lines 186–224). -/
def contentFlags (f : FeatureRecord) (m : MetaRecord) : List Flag :=
  (keywordRule f m).2 ++ (entropyRule f).2

/-- Behavioral flags in rule-firing order (scorer.py lines 226–244). -/
def behavioralFlags (f : FeatureRecord) : List Flag :=
  (dnsRule f).2 ++ httpsInfoFlags f

/-- scorer.py lines 10–257: `compute_risk_breakdown`. Each category score is
the accumulated rule points clamped by `min` exactly where the source clamps
(lines 120, 184, 224, 246); `total` is the unclamped sum of the clamped
category scores (line 248); the flag list is the per-rule appends in source
order. -/
def compute_risk_breakdown (f : FeatureRecord) (m : MetaRecord) : RiskBreakdown :=
  let url_score := min ((httpsRule f).1 + (urlLengthRule f).1 + (ipRule f).1 +
    (hyphenRule f).1 + (atRule f).1 + (doubleSlashRule f).1 + (hexRule f).1 +
    (subdomainRule f).1 + (portRule f).1) 40
  let domain_score := min ((tldRule f m).1 + (brandRule f).1 + (ageRule f).1) 35
  let content_score := min ((keywordRule f m).1 + (entropyRule f).1) 15
  let behavioral_score := min (dnsRule f).1 10
  { url_score := url_score, domain_score := domain_score,
    content_score := content_score, behavioral_score := behavioral_score,
    total := url_score + domain_score + content_score + behavioral_score,
    flags := urlFlags f ++ domainFlags f m ++ contentFlags f m ++ behavioralFlags f }

/-! ### Verdict composer (src/app/main.py, analyze_url step 4, lines 139–162) -/

/-- The composed verdict/confidence/risk/engine quadruple of analyze_url. -/
structure ComposeResult where
  verdict : String
  confidence : ℚ
  risk_score : ℤ
  engine : String
deriving DecidableEq

/-- Python `round` (banker's rounding: ties go to the even integer). -/
def pyRound (x : ℚ) : ℤ :=
  let fl := x.floor
  let r := x - (fl : ℚ)
  if r < 1/2 then fl
  else if 1/2 < r then fl + 1
  else if fl % 2 = 0 then fl else fl + 1

/-- main.py lines 140–154 and the clamp of line 162: composition when a model
probability is available. The source mutates verdict/confidence/risk/engine
in place under the override condition and clamps afterwards; here the
override branch is materialized as a record (the clamp commutes into both
branches). Floats are modelled as rationals (0.5, 0.4, 0.85 are 1/2, 4/10,
85/100). -/
def composeWithModel (rule_score : ℤ) (flags : List Flag) (ml_prob : ℚ)
    (engine_name : String) : ComposeResult :=
  let risk_score := pyRound (ml_prob * 60 + (rule_score : ℚ) * (4/10))
  let confidence := if 1/2 < ml_prob then ml_prob else 1 - ml_prob
  let verdict := if 1/2 ≤ ml_prob then "PHISHING" else "LEGITIMATE"
  let danger_flags := (flags.filter (fun fl => fl.severity == "red")).length
  if 3 ≤ danger_flags ∧ verdict = "LEGITIMATE" then
    { verdict := "PHISHING",
      confidence := max confidence (85/100),
      risk_score := max 0 (min 100 (max risk_score 75)),
      engine := engine_name ++ "+override" }
  else
    { verdict := verdict, confidence := confidence,
      risk_score := max 0 (min 100 risk_score), engine := engine_name }

/-- main.py lines 155–162: pure rule-based composition (no model probability). -/
def composeRuleBased (rule_score : ℤ) : ComposeResult :=
  { verdict := if rule_score ≥ 45 then "PHISHING" else "LEGITIMATE",
    confidence := min (1/2 + (rule_score : ℚ) / 200) (97/100),
    risk_score := max 0 (min 100 rule_score),
    engine := "rule-based" }

/-! ### Feature names by rule category (from the `feature` keys of the flags
each section of scorer.py appends) -/

def urlRuleFeatures : List String :=
  ["has_https", "url_length", "has_ip_address", "num_hyphens", "has_at_symbol",
   "has_double_slash", "has_hex_encoding", "num_subdomains", "has_non_standard_port"]

def domainRuleFeatures : List String :=
  ["tld_is_high_risk", "brand_impersonation", "domain_age_days"]

def contentRuleFeatures : List String :=
  ["suspicious_keyword_count", "url_entropy"]

def behavioralRuleFeatures : List String :=
  ["dns_resolves", "has_https"]

/-! ### Concrete records used by witnesses and counterexamples -/

/-- A feature record whose breakdown carries exactly three red flags
(no HTTPS, IP-literal host, brand impersonation). -/
def sampleRedF : FeatureRecord :=
  { url_length := 20, path_length := 0, num_dots := 3, num_hyphens := 0,
    num_digits_in_domain := 8, num_slashes := 0, num_query_params := 0,
    num_subdomains := 0, subdomain_count := 0, domain_length := 11,
    url_entropy := 0, suspicious_keyword_count := 0, domain_age_days := 5000,
    has_https := false, has_ip_address := true, has_at_symbol := false,
    has_double_slash := false, has_hex_encoding := false, tld_is_high_risk := false,
    brand_impersonation := true, dns_resolves := true, has_non_standard_port := false }

/-- Metadata to accompany `sampleRedF`. -/
def sampleRedM : MetaRecord :=
  { protocol := "http", hostname := "203.0.113.9", tld := "", domain := "203.0.113.9",
    subdomain := "", suspicious_keywords := [], domain_created := "Unknown" }

/-- A feature record with `url_length = 75` and every other URL rule quiet. -/
def sample75F : FeatureRecord :=
  { url_length := 75, path_length := 0, num_dots := 1, num_hyphens := 0,
    num_digits_in_domain := 0, num_slashes := 0, num_query_params := 0,
    num_subdomains := 0, subdomain_count := 0, domain_length := 7,
    url_entropy := 0, suspicious_keyword_count := 0, domain_age_days := 5000,
    has_https := true, has_ip_address := false, has_at_symbol := false,
    has_double_slash := false, has_hex_encoding := false, tld_is_high_risk := false,
    brand_impersonation := false, dns_resolves := true, has_non_standard_port := false }

/-- Metadata to accompany `sample75F`. -/
def sample75M : MetaRecord :=
  { protocol := "https", hostname := "example.com", tld := "com", domain := "example",
    subdomain := "", suspicious_keywords := [], domain_created := "2005-01-01" }

/-- The urlparse result of `"http://"`: a successful parse with no hostname. -/
def parsedNoHost : ParsedUrl :=
  { scheme := "http", hostname := none, path := "", query := "", port := none }

/-- The urlparse result of `"http://paypa1.com"`. -/
def parsedPaypa1 : ParsedUrl :=
  { scheme := "http", hostname := some "paypa1.com", path := "", query := "", port := none }

/-- The urlparse result of `"http://paypal.com"`. -/
def parsedPaypal : ParsedUrl :=
  { scheme := "http", hostname := some "paypal.com", path := "", query := "", port := none }

/-! ### Helper lemmas -/

theorem splitChAux_ne_nil (sep : Char) (l acc : List Char) : splitChAux sep l acc ≠ [] := by
  induction l generalizing acc with
  | nil => simp [splitChAux]
  | cons c cs ih =>
      unfold splitChAux
      split
      · simp
      · exact ih _

theorem splitCh_ne_nil (sep : Char) (s : String) : splitCh sep s ≠ [] :=
  splitChAux_ne_nil sep s.data []

theorem httpsRule_pts_nonneg (f : FeatureRecord) : 0 ≤ (httpsRule f).1 := by
  unfold httpsRule; split <;> norm_num

theorem urlLengthRule_pts_nonneg (f : FeatureRecord) : 0 ≤ (urlLengthRule f).1 := by
  unfold urlLengthRule
  split
  · rename_i h
    have h1 : (0:ℤ) ≤ (f.url_length - 100) / 20 := Int.ediv_nonneg (by omega) (by norm_num)
    exact le_min (by norm_num) (by linarith)
  · split <;> norm_num

theorem ipRule_pts_nonneg (f : FeatureRecord) : 0 ≤ (ipRule f).1 := by
  unfold ipRule; split <;> norm_num

theorem hyphenRule_pts_nonneg (f : FeatureRecord) : 0 ≤ (hyphenRule f).1 := by
  unfold hyphenRule
  split
  · norm_num
  split <;> norm_num

theorem atRule_pts_nonneg (f : FeatureRecord) : 0 ≤ (atRule f).1 := by
  unfold atRule; split <;> norm_num

theorem doubleSlashRule_pts_nonneg (f : FeatureRecord) : 0 ≤ (doubleSlashRule f).1 := by
  unfold doubleSlashRule; split <;> norm_num

theorem hexRule_pts_nonneg (f : FeatureRecord) : 0 ≤ (hexRule f).1 := by
  unfold hexRule; split <;> norm_num

theorem subdomainRule_pts_nonneg (f : FeatureRecord) : 0 ≤ (subdomainRule f).1 := by
  unfold subdomainRule
  split
  · norm_num
  split <;> norm_num

theorem portRule_pts_nonneg (f : FeatureRecord) : 0 ≤ (portRule f).1 := by
  unfold portRule; split <;> norm_num

theorem tldRule_pts_nonneg (f : FeatureRecord) (m : MetaRecord) : 0 ≤ (tldRule f m).1 := by
  unfold tldRule; split <;> norm_num

theorem brandRule_pts_nonneg (f : FeatureRecord) : 0 ≤ (brandRule f).1 := by
  unfold brandRule; split <;> norm_num

theorem ageRule_pts_nonneg (f : FeatureRecord) : 0 ≤ (ageRule f).1 := by
  unfold ageRule
  dsimp only
  split
  · norm_num
  split
  · norm_num
  split
  · norm_num
  split <;> norm_num

theorem keywordRule_pts_nonneg (f : FeatureRecord) (m : MetaRecord) : 0 ≤ (keywordRule f m).1 := by
  unfold keywordRule
  dsimp only
  split
  · norm_num
  split
  · norm_num
  split <;> norm_num

theorem entropyRule_pts_nonneg (f : FeatureRecord) : 0 ≤ (entropyRule f).1 := by
  unfold entropyRule; split <;> norm_num

theorem dnsRule_pts_nonneg (f : FeatureRecord) : 0 ≤ (dnsRule f).1 := by
  unfold dnsRule; split <;> norm_num

theorem httpsRule_flags_feature (f : FeatureRecord) :
    ∀ fl ∈ (httpsRule f).2, fl.feature = "has_https" := by
  unfold httpsRule; split <;> simp

theorem urlLengthRule_flags_feature (f : FeatureRecord) :
    ∀ fl ∈ (urlLengthRule f).2, fl.feature = "url_length" := by
  unfold urlLengthRule
  split
  · simp
  split <;> simp

theorem ipRule_flags_feature (f : FeatureRecord) :
    ∀ fl ∈ (ipRule f).2, fl.feature = "has_ip_address" := by
  unfold ipRule; split <;> simp

theorem hyphenRule_flags_feature (f : FeatureRecord) :
    ∀ fl ∈ (hyphenRule f).2, fl.feature = "num_hyphens" := by
  unfold hyphenRule
  split
  · simp
  split <;> simp

theorem atRule_flags_feature (f : FeatureRecord) :
    ∀ fl ∈ (atRule f).2, fl.feature = "has_at_symbol" := by
  unfold atRule; split <;> simp

theorem doubleSlashRule_flags_feature (f : FeatureRecord) :
    ∀ fl ∈ (doubleSlashRule f).2, fl.feature = "has_double_slash" := by
  unfold doubleSlashRule; split <;> simp

theorem hexRule_flags_feature (f : FeatureRecord) :
    ∀ fl ∈ (hexRule f).2, fl.feature = "has_hex_encoding" := by
  unfold hexRule; split <;> simp

theorem subdomainRule_flags_feature (f : FeatureRecord) :
    ∀ fl ∈ (subdomainRule f).2, fl.feature = "num_subdomains" := by
  unfold subdomainRule
  split
  · simp
  split <;> simp

theorem portRule_flags_feature (f : FeatureRecord) :
    ∀ fl ∈ (portRule f).2, fl.feature = "has_non_standard_port" := by
  unfold portRule; split <;> simp

theorem tldRule_flags_feature (f : FeatureRecord) (m : MetaRecord) :
    ∀ fl ∈ (tldRule f m).2, fl.feature = "tld_is_high_risk" := by
  unfold tldRule; split <;> simp

theorem brandRule_flags_feature (f : FeatureRecord) :
    ∀ fl ∈ (brandRule f).2, fl.feature = "brand_impersonation" := by
  unfold brandRule; split <;> simp

theorem ageRule_flags_feature (f : FeatureRecord) :
    ∀ fl ∈ (ageRule f).2, fl.feature = "domain_age_days" := by
  unfold ageRule
  dsimp only
  split
  · simp
  split
  · simp
  split
  · simp
  split <;> simp

theorem keywordRule_flags_feature (f : FeatureRecord) (m : MetaRecord) :
    ∀ fl ∈ (keywordRule f m).2, fl.feature = "suspicious_keyword_count" := by
  unfold keywordRule
  dsimp only
  split
  · simp
  split
  · simp
  split <;> simp

theorem entropyRule_flags_feature (f : FeatureRecord) :
    ∀ fl ∈ (entropyRule f).2, fl.feature = "url_entropy" := by
  unfold entropyRule; split <;> simp

theorem dnsRule_flags_feature (f : FeatureRecord) :
    ∀ fl ∈ (dnsRule f).2, fl.feature = "dns_resolves" := by
  unfold dnsRule; split <;> simp

theorem httpsInfoFlags_feature (f : FeatureRecord) :
    ∀ fl ∈ httpsInfoFlags f, fl.feature = "has_https" := by
  unfold httpsInfoFlags; split <;> simp

theorem filter_feature_none (want : String) (name : String) (l : List Flag)
    (hname : ∀ fl ∈ l, fl.feature = name) (hne : name ≠ want) :
    l.filter (fun fl => fl.feature == want) = [] := by
  rw [List.filter_eq_nil_iff]
  intro fl hf
  simp [hname fl hf, hne]

theorem filter_feature_all (want : String) (l : List Flag)
    (hname : ∀ fl ∈ l, fl.feature = want) :
    l.filter (fun fl => fl.feature == want) = l := by
  rw [List.filter_eq_self]
  intro fl hf
  simp [hname fl hf]

/-- In a full breakdown the flags tagged `domain_age_days` are exactly the
flags appended by the domain-age rule. -/
theorem breakdown_age_flags (f : FeatureRecord) (m : MetaRecord) :
    (compute_risk_breakdown f m).flags.filter (fun fl => fl.feature == "domain_age_days")
      = (ageRule f).2 := by
  show ((urlFlags f ++ domainFlags f m ++ contentFlags f m ++ behavioralFlags f).filter
    (fun fl => fl.feature == "domain_age_days")) = (ageRule f).2
  unfold urlFlags domainFlags contentFlags behavioralFlags
  simp only [List.filter_append]
  rw [filter_feature_none _ _ _ (httpsRule_flags_feature f) (by decide),
      filter_feature_none _ _ _ (urlLengthRule_flags_feature f) (by decide),
      filter_feature_none _ _ _ (ipRule_flags_feature f) (by decide),
      filter_feature_none _ _ _ (hyphenRule_flags_feature f) (by decide),
      filter_feature_none _ _ _ (atRule_flags_feature f) (by decide),
      filter_feature_none _ _ _ (doubleSlashRule_flags_feature f) (by decide),
      filter_feature_none _ _ _ (hexRule_flags_feature f) (by decide),
      filter_feature_none _ _ _ (subdomainRule_flags_feature f) (by decide),
      filter_feature_none _ _ _ (portRule_flags_feature f) (by decide),
      filter_feature_none _ _ _ (tldRule_flags_feature f m) (by decide),
      filter_feature_none _ _ _ (brandRule_flags_feature f) (by decide),
      filter_feature_all _ _ (ageRule_flags_feature f),
      filter_feature_none _ _ _ (keywordRule_flags_feature f m) (by decide),
      filter_feature_none _ _ _ (entropyRule_flags_feature f) (by decide),
      filter_feature_none _ _ _ (dnsRule_flags_feature f) (by decide),
      filter_feature_none _ _ _ (httpsInfoFlags_feature f) (by decide)]
  simp

/-- In a full breakdown the flags tagged `url_length` are exactly the flags
appended by the URL-length rule. -/
theorem breakdown_urlLength_flags (f : FeatureRecord) (m : MetaRecord) :
    (compute_risk_breakdown f m).flags.filter (fun fl => fl.feature == "url_length")
      = (urlLengthRule f).2 := by
  show ((urlFlags f ++ domainFlags f m ++ contentFlags f m ++ behavioralFlags f).filter
    (fun fl => fl.feature == "url_length")) = (urlLengthRule f).2
  unfold urlFlags domainFlags contentFlags behavioralFlags
  simp only [List.filter_append]
  rw [filter_feature_none _ _ _ (httpsRule_flags_feature f) (by decide),
      filter_feature_all _ _ (urlLengthRule_flags_feature f),
      filter_feature_none _ _ _ (ipRule_flags_feature f) (by decide),
      filter_feature_none _ _ _ (hyphenRule_flags_feature f) (by decide),
      filter_feature_none _ _ _ (atRule_flags_feature f) (by decide),
      filter_feature_none _ _ _ (doubleSlashRule_flags_feature f) (by decide),
      filter_feature_none _ _ _ (hexRule_flags_feature f) (by decide),
      filter_feature_none _ _ _ (subdomainRule_flags_feature f) (by decide),
      filter_feature_none _ _ _ (portRule_flags_feature f) (by decide),
      filter_feature_none _ _ _ (tldRule_flags_feature f m) (by decide),
      filter_feature_none _ _ _ (brandRule_flags_feature f) (by decide),
      filter_feature_none _ _ _ (ageRule_flags_feature f) (by decide),
      filter_feature_none _ _ _ (keywordRule_flags_feature f m) (by decide),
      filter_feature_none _ _ _ (entropyRule_flags_feature f) (by decide),
      filter_feature_none _ _ _ (dnsRule_flags_feature f) (by decide),
      filter_feature_none _ _ _ (httpsInfoFlags_feature f) (by decide)]
  simp

/-- Claim C1: for every feature record and metadata, the breakdown satisfies
total = url_score + domain_score + content_score + behavioral_score, with
url_score ∈ [0,40], domain_score ∈ [0,35], content_score ∈ [0,15],
behavioral_score ∈ [0,10], and hence total ∈ [0,100]. -/
theorem breakdown_total_and_caps (f : FeatureRecord) (m : MetaRecord) :
    (compute_risk_breakdown f m).total =
      (compute_risk_breakdown f m).url_score + (compute_risk_breakdown f m).domain_score +
      (compute_risk_breakdown f m).content_score + (compute_risk_breakdown f m).behavioral_score ∧
    0 ≤ (compute_risk_breakdown f m).url_score ∧ (compute_risk_breakdown f m).url_score ≤ 40 ∧
    0 ≤ (compute_risk_breakdown f m).domain_score ∧ (compute_risk_breakdown f m).domain_score ≤ 35 ∧
    0 ≤ (compute_risk_breakdown f m).content_score ∧ (compute_risk_breakdown f m).content_score ≤ 15 ∧
    0 ≤ (compute_risk_breakdown f m).behavioral_score ∧ (compute_risk_breakdown f m).behavioral_score ≤ 10 ∧
    0 ≤ (compute_risk_breakdown f m).total ∧ (compute_risk_breakdown f m).total ≤ 100 := by
  have h1 := httpsRule_pts_nonneg f
  have h2 := urlLengthRule_pts_nonneg f
  have h3 := ipRule_pts_nonneg f
  have h4 := hyphenRule_pts_nonneg f
  have h5 := atRule_pts_nonneg f
  have h6 := doubleSlashRule_pts_nonneg f
  have h7 := hexRule_pts_nonneg f
  have h8 := subdomainRule_pts_nonneg f
  have h9 := portRule_pts_nonneg f
  have h10 := tldRule_pts_nonneg f m
  have h11 := brandRule_pts_nonneg f
  have h12 := ageRule_pts_nonneg f
  have h13 := keywordRule_pts_nonneg f m
  have h14 := entropyRule_pts_nonneg f
  have h15 := dnsRule_pts_nonneg f
  have hu0 : 0 ≤ (compute_risk_breakdown f m).url_score := le_min (by linarith) (by norm_num)
  have hu1 : (compute_risk_breakdown f m).url_score ≤ 40 := min_le_right _ _
  have hd0 : 0 ≤ (compute_risk_breakdown f m).domain_score := le_min (by linarith) (by norm_num)
  have hd1 : (compute_risk_breakdown f m).domain_score ≤ 35 := min_le_right _ _
  have hc0 : 0 ≤ (compute_risk_breakdown f m).content_score := le_min (by linarith) (by norm_num)
  have hc1 : (compute_risk_breakdown f m).content_score ≤ 15 := min_le_right _ _
  have hb0 : 0 ≤ (compute_risk_breakdown f m).behavioral_score := le_min h15 (by norm_num)
  have hb1 : (compute_risk_breakdown f m).behavioral_score ≤ 10 := min_le_right _ _
  refine ⟨rfl, hu0, hu1, hd0, hd1, hc0, hc1, hb0, hb1, ?_, ?_⟩
  · show 0 ≤ (compute_risk_breakdown f m).url_score + (compute_risk_breakdown f m).domain_score +
      (compute_risk_breakdown f m).content_score + (compute_risk_breakdown f m).behavioral_score
    linarith
  · show (compute_risk_breakdown f m).url_score + (compute_risk_breakdown f m).domain_score +
      (compute_risk_breakdown f m).content_score + (compute_risk_breakdown f m).behavioral_score ≤ 100
    linarith

theorem forall_feature_mem (l : List Flag) (name : String) (cat : List String)
    (hname : ∀ fl ∈ l, fl.feature = name) (hmem : name ∈ cat) :
    ∀ fl ∈ l, fl.feature ∈ cat := fun fl h => (hname fl h) ▸ hmem

theorem forall_feature_append {p : Flag → Prop} {l₁ l₂ : List Flag}
    (h₁ : ∀ fl ∈ l₁, p fl) (h₂ : ∀ fl ∈ l₂, p fl) : ∀ fl ∈ l₁ ++ l₂, p fl := by
  intro fl h
  rcases List.mem_append.mp h with h | h
  exacts [h₁ fl h, h₂ fl h]

/-- Claim C4: for every feature record, exactly one domain-age bucket fires,
selected by first match in the order: age = -1 gives +5 with a yellow flag;
else age < 7 gives +12 with a red flag; else age < 30 gives +8 with a red
flag; else age < 180 gives +3 with a yellow flag; else (age ≥ 180) gives 0
points with a green flag. In particular age = -1 is never scored by the
age < 7 bucket. -/
theorem domain_age_single_bucket (f : FeatureRecord) (m : MetaRecord) :
    ((compute_risk_breakdown f m).flags.filter (fun fl => fl.feature == "domain_age_days")
        = (ageRule f).2) ∧
    (ageRule f).2.length = 1 ∧
    (f.domain_age_days = -1 →
      (ageRule f).1 = 5 ∧ ∀ fl ∈ (ageRule f).2, fl.severity = "yellow") ∧
    (f.domain_age_days ≠ -1 → f.domain_age_days < 7 →
      (ageRule f).1 = 12 ∧ ∀ fl ∈ (ageRule f).2, fl.severity = "red") ∧
    (7 ≤ f.domain_age_days → f.domain_age_days < 30 →
      (ageRule f).1 = 8 ∧ ∀ fl ∈ (ageRule f).2, fl.severity = "red") ∧
    (30 ≤ f.domain_age_days → f.domain_age_days < 180 →
      (ageRule f).1 = 3 ∧ ∀ fl ∈ (ageRule f).2, fl.severity = "yellow") ∧
    (180 ≤ f.domain_age_days →
      (ageRule f).1 = 0 ∧ ∀ fl ∈ (ageRule f).2, fl.severity = "green") := by
  refine ⟨breakdown_age_flags f m, ?_, ?_, ?_, ?_, ?_, ?_⟩
  · unfold ageRule
    dsimp only
    split
    · simp
    split
    · simp
    split
    · simp
    split <;> simp
  · intro h
    unfold ageRule
    dsimp only
    rw [if_pos h]
    exact ⟨rfl, by simp⟩
  · intro h1 h2
    unfold ageRule
    dsimp only
    rw [if_neg h1, if_pos h2]
    exact ⟨rfl, by simp⟩
  · intro h1 h2
    unfold ageRule
    dsimp only
    rw [if_neg (by omega : ¬ f.domain_age_days = -1),
        if_neg (by omega : ¬ f.domain_age_days < 7), if_pos h2]
    exact ⟨rfl, by simp⟩
  · intro h1 h2
    unfold ageRule
    dsimp only
    rw [if_neg (by omega : ¬ f.domain_age_days = -1),
        if_neg (by omega : ¬ f.domain_age_days < 7),
        if_neg (by omega : ¬ f.domain_age_days < 30), if_pos h2]
    exact ⟨rfl, by simp⟩
  · intro h1
    unfold ageRule
    dsimp only
    rw [if_neg (by omega : ¬ f.domain_age_days = -1),
        if_neg (by omega : ¬ f.domain_age_days < 7),
        if_neg (by omega : ¬ f.domain_age_days < 30),
        if_neg (by omega : ¬ f.domain_age_days < 180)]
    exact ⟨rfl, by simp⟩

/-- Claim C8: the flag list of every breakdown is the concatenation of the
per-category flag segments in rule-firing order — every URL-structure flag
precedes every Domain-intelligence flag, which precedes every
Content-analysis flag, which precedes every Behavioral flag — and the flags
of each segment are tagged with that category's feature names. Flags are
only appended during scoring (they arise purely as this concatenation) and
never mutated or removed. -/
theorem flags_follow_rule_order (f : FeatureRecord) (m : MetaRecord) :
    (compute_risk_breakdown f m).flags
      = urlFlags f ++ domainFlags f m ++ contentFlags f m ++ behavioralFlags f ∧
    (∀ fl ∈ urlFlags f, fl.feature ∈ urlRuleFeatures) ∧
    (∀ fl ∈ domainFlags f m, fl.feature ∈ domainRuleFeatures) ∧
    (∀ fl ∈ contentFlags f m, fl.feature ∈ contentRuleFeatures) ∧
    (∀ fl ∈ behavioralFlags f, fl.feature ∈ behavioralRuleFeatures) := by
  refine ⟨rfl, ?_, ?_, ?_, ?_⟩
  · exact forall_feature_append (forall_feature_append (forall_feature_append
      (forall_feature_append (forall_feature_append (forall_feature_append
        (forall_feature_append (forall_feature_append
          (forall_feature_mem _ _ _ (httpsRule_flags_feature f) (by decide))
          (forall_feature_mem _ _ _ (urlLengthRule_flags_feature f) (by decide)))
        (forall_feature_mem _ _ _ (ipRule_flags_feature f) (by decide)))
        (forall_feature_mem _ _ _ (hyphenRule_flags_feature f) (by decide)))
        (forall_feature_mem _ _ _ (atRule_flags_feature f) (by decide)))
        (forall_feature_mem _ _ _ (doubleSlashRule_flags_feature f) (by decide)))
        (forall_feature_mem _ _ _ (hexRule_flags_feature f) (by decide)))
        (forall_feature_mem _ _ _ (subdomainRule_flags_feature f) (by decide)))
      (forall_feature_mem _ _ _ (portRule_flags_feature f) (by decide))
  · exact forall_feature_append (forall_feature_append
      (forall_feature_mem _ _ _ (tldRule_flags_feature f m) (by decide))
      (forall_feature_mem _ _ _ (brandRule_flags_feature f) (by decide)))
      (forall_feature_mem _ _ _ (ageRule_flags_feature f) (by decide))
  · exact forall_feature_append
      (forall_feature_mem _ _ _ (keywordRule_flags_feature f m) (by decide))
      (forall_feature_mem _ _ _ (entropyRule_flags_feature f) (by decide))
  · exact forall_feature_append
      (forall_feature_mem _ _ _ (dnsRule_flags_feature f) (by decide))
      (forall_feature_mem _ _ _ (httpsInfoFlags_feature f) (by decide))

/-- Claim C9 counterexample: the record with url_length = 75 (inside the
claim's "75–100 band", all other URL rules quiet) receives 0 length points
and no length flag — the source guard is strictly `url_length > 75`, so the
claimed flat 3 points with a yellow flag do not happen at 75. -/
theorem url_length_75_no_points :
    sample75F.url_length = 75 ∧
    urlLengthRule sample75F = (0, []) ∧
    (compute_risk_breakdown sample75F sample75M).url_score = 0 ∧
    (compute_risk_breakdown sample75F sample75M).flags.filter
      (fun fl => fl.feature == "url_length") = [] := by
  exact ⟨by decide, by decide, by decide, by decide⟩

/-- Claim C9 as amended: the URL-length rule contributes
min(10, ((url_length - 100) / 20) * 3 + 3) points with a red flag when
url_length > 100, a flat 3 points with a yellow flag when
75 < url_length ≤ 100, and 0 points with no flag when url_length ≤ 75; the
length flags of the full breakdown are exactly the rule's flags. -/
theorem url_length_rule_tiers (f : FeatureRecord) (m : MetaRecord) :
    ((compute_risk_breakdown f m).flags.filter (fun fl => fl.feature == "url_length")
        = (urlLengthRule f).2) ∧
    (100 < f.url_length →
      urlLengthRule f = (min 10 ((f.url_length - 100) / 20 * 3 + 3),
        [{severity := "red", title := "Excessively Long URL",
          description := "URL is " ++ toString f.url_length ++
            " characters. Attackers pad URLs to confuse users.",
          feature := "url_length"}])) ∧
    (75 < f.url_length → f.url_length ≤ 100 →
      urlLengthRule f = (3,
        [{severity := "yellow", title := "Moderately Long URL",
          description := "URL length (" ++ toString f.url_length ++ " chars) is above average.",
          feature := "url_length"}])) ∧
    (f.url_length ≤ 75 → urlLengthRule f = (0, [])) := by
  refine ⟨breakdown_urlLength_flags f m, ?_, ?_, ?_⟩
  · intro h
    unfold urlLengthRule
    rw [if_pos h]
  · intro h1 h2
    unfold urlLengthRule
    rw [if_neg (by omega : ¬ f.url_length > 100), if_pos h1]
  · intro h
    unfold urlLengthRule
    rw [if_neg (by omega : ¬ f.url_length > 100), if_neg (by omega : ¬ f.url_length > 75)]

/-- Claim C7: the domain parser always returns three strings: with at most
one dot-separated label it returns ("", hostname, ""); with exactly 2 labels
it returns ("", label0, label1); with 3 or more labels whose last two joined
by "." are in the multi-label suffix set, the tld is those two labels, the
domain is the third-from-last label and the subdomain the remaining leading
labels joined by "."; otherwise the tld is the last label, the domain the
second-to-last and the subdomain the rest; and the three concrete examples
of the specification hold. -/
theorem parse_domain_parts_spec (hostname : String) :
    ((splitCh '.' (lowerStr hostname)).length ≤ 1 →
      parseDomainParts hostname = ("", hostname, "")) ∧
    ((splitCh '.' (lowerStr hostname)).length = 2 →
      parseDomainParts hostname =
        ("", (splitCh '.' (lowerStr hostname)).getD 0 "",
         (splitCh '.' (lowerStr hostname)).getD 1 "")) ∧
    (3 ≤ (splitCh '.' (lowerStr hostname)).length →
      MULTI_TLDS.contains
          ((splitCh '.' (lowerStr hostname)).getD ((splitCh '.' (lowerStr hostname)).length - 2) "" ++
           "." ++
           (splitCh '.' (lowerStr hostname)).getD ((splitCh '.' (lowerStr hostname)).length - 1) "") = true →
      parseDomainParts hostname =
        (joinDot ((splitCh '.' (lowerStr hostname)).take ((splitCh '.' (lowerStr hostname)).length - 3)),
         (splitCh '.' (lowerStr hostname)).getD ((splitCh '.' (lowerStr hostname)).length - 3) "",
         (splitCh '.' (lowerStr hostname)).getD ((splitCh '.' (lowerStr hostname)).length - 2) "" ++
           "." ++
           (splitCh '.' (lowerStr hostname)).getD ((splitCh '.' (lowerStr hostname)).length - 1) "")) ∧
    (3 ≤ (splitCh '.' (lowerStr hostname)).length →
      MULTI_TLDS.contains
          ((splitCh '.' (lowerStr hostname)).getD ((splitCh '.' (lowerStr hostname)).length - 2) "" ++
           "." ++
           (splitCh '.' (lowerStr hostname)).getD ((splitCh '.' (lowerStr hostname)).length - 1) "") = false →
      parseDomainParts hostname =
        (joinDot ((splitCh '.' (lowerStr hostname)).take ((splitCh '.' (lowerStr hostname)).length - 2)),
         (splitCh '.' (lowerStr hostname)).getD ((splitCh '.' (lowerStr hostname)).length - 2) "",
         (splitCh '.' (lowerStr hostname)).getD ((splitCh '.' (lowerStr hostname)).length - 1) "")) ∧
    parseDomainParts "mail.google.com" = ("mail", "google", "com") ∧
    parseDomainParts "foo.bar.co.uk" = ("foo", "bar", "co.uk") ∧
    parseDomainParts "example.com" = ("", "example", "com") := by
  have hpos : 0 < (splitCh '.' (lowerStr hostname)).length :=
    List.length_pos.mpr (splitCh_ne_nil '.' (lowerStr hostname))
  refine ⟨?_, ?_, ?_, ?_, by decide, by decide, by decide⟩
  · intro h
    have h1 : (splitCh '.' (lowerStr hostname)).length = 1 := by omega
    unfold parseDomainParts
    dsimp only
    rw [if_pos h1]
  · intro h2
    unfold parseDomainParts
    dsimp only
    rw [if_neg (by omega : ¬ (splitCh '.' (lowerStr hostname)).length = 1), if_pos h2]
  · intro h3 hc
    unfold parseDomainParts
    dsimp only
    rw [if_neg (by omega : ¬ (splitCh '.' (lowerStr hostname)).length = 1),
        if_neg (by omega : ¬ (splitCh '.' (lowerStr hostname)).length = 2),
        if_pos hc]
  · intro h3 hc
    unfold parseDomainParts
    dsimp only
    rw [if_neg (by omega : ¬ (splitCh '.' (lowerStr hostname)).length = 1),
        if_neg (by omega : ¬ (splitCh '.' (lowerStr hostname)).length = 2),
        if_neg (by rw [hc]; exact Bool.false_ne_true : ¬ MULTI_TLDS.contains
          ((splitCh '.' (lowerStr hostname)).getD ((splitCh '.' (lowerStr hostname)).length - 2) "" ++
           "." ++
           (splitCh '.' (lowerStr hostname)).getD ((splitCh '.' (lowerStr hostname)).length - 1) "") = true)]

/-- Claim C5: brand_impersonation is true iff some (brand, official_domain)
table entry satisfies (a) the brand substring occurs in the lowercased raw
URL and the parsed domain differs from the official domain, or (b) the
leet-normalized domain equals the official domain while the raw domain does
not, or (c) the brand substring occurs in the leet-normalized URL and
neither the raw nor the normalized domain equals the official domain.
Concretely, the URL parsing to domain "paypa1", tld "com" yields
brand_impersonation = true and the one parsing to domain "paypal", tld "com"
yields false. -/
theorem brand_impersonation_spec :
    (∀ url_lower domain : String,
      brandImpersonation url_lower domain = true ↔
        ∃ bp ∈ BRAND_DOMAINS,
          (strContains url_lower bp.1 = true ∧ domain ≠ bp.2) ∨
          (normalizeLeet domain = bp.2 ∧ domain ≠ bp.2) ∨
          (strContains (normalizeLeet url_lower) bp.1 = true ∧ domain ≠ bp.2 ∧
            normalizeLeet domain ≠ bp.2)) ∧
    parseDomainParts "paypa1.com" = ("", "paypa1", "com") ∧
    (extract_features "paypa1.com" parsedPaypa1 0 (-1) "Unknown" false).1.brand_impersonation
      = true ∧
    parseDomainParts "paypal.com" = ("", "paypal", "com") ∧
    (extract_features "paypal.com" parsedPaypal 0 (-1) "Unknown" false).1.brand_impersonation
      = false := by
  refine ⟨?_, by decide, by decide, by decide, by decide⟩
  intro url_lower domain
  unfold brandImpersonation
  dsimp only
  rw [List.any_eq_true]
  constructor
  · rintro ⟨bp, hmem, hp⟩
    refine ⟨bp, hmem, ?_⟩
    simp only [Bool.or_eq_true, Bool.and_eq_true, bne_iff_ne, beq_iff_eq] at hp
    tauto
  · rintro ⟨bp, hmem, hp⟩
    refine ⟨bp, hmem, ?_⟩
    simp only [Bool.or_eq_true, Bool.and_eq_true, bne_iff_ne, beq_iff_eq]
    tauto

/-- Claim C6 counterexample: the input "http://" parses successfully with no
hostname, yet extraction does not report an error — it synthesizes a full
feature record (url_length = 7) with the hostname silently defaulted to "". -/
theorem extraction_missing_hostname_succeeds :
    parsedNoHost.hostname = none ∧
    extractFeaturesChecked "http://" parsedNoHost 0 (-1) "Unknown" false
      = Except.ok (extract_features "http://" parsedNoHost 0 (-1) "Unknown" false) ∧
    (extract_features "http://" parsedNoHost 0 (-1) "Unknown" false).2.hostname = "" ∧
    (extract_features "http://" parsedNoHost 0 (-1) "Unknown" false).1.url_length = 7 := by
  exact ⟨rfl, rfl, by decide, by decide⟩

/-- Claim C6 as amended: when the URL parse yields no hostname, feature
extraction does not fail and does not report any error: it silently defaults
the hostname to the empty string (so domain, subdomain and tld are all
empty) and synthesizes a feature record, which the checked extraction
returns successfully. -/
theorem extraction_defaults_missing_hostname (url0 : String) (parsed : ParsedUrl)
    (url_entropy : ℚ) (domain_age_days : ℤ) (domain_created : String) (dns_resolves : Bool)
    (h : parsed.hostname = none) :
    extractFeaturesChecked url0 parsed url_entropy domain_age_days domain_created dns_resolves
      = Except.ok (extract_features url0 parsed url_entropy domain_age_days domain_created
          dns_resolves) ∧
    (extract_features url0 parsed url_entropy domain_age_days domain_created
        dns_resolves).2.hostname = "" ∧
    (extract_features url0 parsed url_entropy domain_age_days domain_created
        dns_resolves).2.domain = "" ∧
    (extract_features url0 parsed url_entropy domain_age_days domain_created
        dns_resolves).2.subdomain = "" ∧
    (extract_features url0 parsed url_entropy domain_age_days domain_created
        dns_resolves).2.tld = "" := by
  obtain ⟨s, ho, pa, q, po⟩ := parsed
  simp only at h
  subst h
  exact ⟨rfl, rfl, rfl, rfl, rfl⟩

theorem extraction_defaults_missing_hostname_witness :
    extractFeaturesChecked "http://x" parsedNoHost 1 3 "Unknown" true
      = Except.ok (extract_features "http://x" parsedNoHost 1 3 "Unknown" true) ∧
    (extract_features "http://x" parsedNoHost 1 3 "Unknown" true).2.hostname = "" ∧
    (extract_features "http://x" parsedNoHost 1 3 "Unknown" true).2.domain = "" ∧
    (extract_features "http://x" parsedNoHost 1 3 "Unknown" true).2.subdomain = "" ∧
    (extract_features "http://x" parsedNoHost 1 3 "Unknown" true).2.tld = "" :=
  extraction_defaults_missing_hostname "http://x" parsedNoHost 1 3 "Unknown" true rfl

/-- Claim C3: with no model probability supplied and rule total t ∈ [0,100],
the composed result is exactly riskScore = t, confidence =
min(1/2 + t/200, 97/100), verdict PHISHING when t ≥ 45 and LEGITIMATE
otherwise, engine label "rule-based". -/
theorem rule_based_composition (t : ℤ) (h0 : 0 ≤ t) (h1 : t ≤ 100) :
    (composeRuleBased t).risk_score = t ∧
    (composeRuleBased t).confidence = min (1/2 + (t : ℚ) / 200) (97/100) ∧
    (45 ≤ t → (composeRuleBased t).verdict = "PHISHING") ∧
    (t < 45 → (composeRuleBased t).verdict = "LEGITIMATE") ∧
    (composeRuleBased t).engine = "rule-based" := by
  refine ⟨?_, rfl, ?_, ?_, rfl⟩
  · show max 0 (min 100 t) = t
    omega
  · intro h
    show (if t ≥ 45 then "PHISHING" else "LEGITIMATE") = "PHISHING"
    rw [if_pos h]
  · intro h
    show (if t ≥ 45 then "PHISHING" else "LEGITIMATE") = "LEGITIMATE"
    rw [if_neg (by omega)]

theorem rule_based_composition_witness :
    (composeRuleBased 50).risk_score = 50 ∧
    (composeRuleBased 50).confidence = min (1/2 + (50 : ℚ) / 200) (97/100) ∧
    (45 ≤ (50:ℤ) → (composeRuleBased 50).verdict = "PHISHING") ∧
    ((50:ℤ) < 45 → (composeRuleBased 50).verdict = "LEGITIMATE") ∧
    (composeRuleBased 50).engine = "rule-based" :=
  rule_based_composition 50 (by norm_num) (by norm_num)

/-- Claim C2: whenever the breakdown carries at least 3 red-severity flags
and the supplied model probability satisfies p < 1/2 — so the pre-override
verdict is LEGITIMATE — the composed result flips to PHISHING, with
confidence max(1-p, 85/100) (the pre-override confidence being 1-p),
risk_score equal to max(round(p·60 + total·2/5), 75) clamped to [0,100]
(hence between 75 and 100), and the engine label with "+override" appended. -/
theorem override_flips_verdict (f : FeatureRecord) (m : MetaRecord) (p : ℚ) (name : String)
    (h3 : 3 ≤ ((compute_risk_breakdown f m).flags.filter
      (fun fl => fl.severity == "red")).length)
    (hp : p < 1/2) :
    (if 1/2 ≤ p then "PHISHING" else "LEGITIMATE") = "LEGITIMATE" ∧
    (composeWithModel (compute_risk_breakdown f m).total
        (compute_risk_breakdown f m).flags p name).verdict = "PHISHING" ∧
    (composeWithModel (compute_risk_breakdown f m).total
        (compute_risk_breakdown f m).flags p name).confidence = max (1 - p) (85/100) ∧
    (composeWithModel (compute_risk_breakdown f m).total
        (compute_risk_breakdown f m).flags p name).risk_score
      = max 0 (min 100 (max (pyRound (p * 60 + ((compute_risk_breakdown f m).total : ℚ) * (4/10))) 75)) ∧
    75 ≤ (composeWithModel (compute_risk_breakdown f m).total
        (compute_risk_breakdown f m).flags p name).risk_score ∧
    (composeWithModel (compute_risk_breakdown f m).total
        (compute_risk_breakdown f m).flags p name).risk_score ≤ 100 ∧
    (composeWithModel (compute_risk_breakdown f m).total
        (compute_risk_breakdown f m).flags p name).engine = name ++ "+override" := by
  have hle : ¬ (1/2 : ℚ) ≤ p := by linarith
  have hlt : ¬ (1/2 : ℚ) < p := by linarith
  have hv : (if (1/2 : ℚ) ≤ p then "PHISHING" else "LEGITIMATE") = "LEGITIMATE" := if_neg hle
  have hkey : composeWithModel (compute_risk_breakdown f m).total
      (compute_risk_breakdown f m).flags p name
      = { verdict := "PHISHING",
          confidence := max (1 - p) (85/100),
          risk_score := max 0 (min 100 (max (pyRound (p * 60 +
            ((compute_risk_breakdown f m).total : ℚ) * (4/10))) 75)),
          engine := name ++ "+override" } := by
    unfold composeWithModel
    dsimp only
    rw [hv, if_neg hlt, if_pos ⟨h3, rfl⟩]
  refine ⟨hv, by rw [hkey], by rw [hkey], by rw [hkey], ?_, ?_, by rw [hkey]⟩
  · rw [hkey]
    show 75 ≤ max 0 (min 100 (max (pyRound (p * 60 +
      ((compute_risk_breakdown f m).total : ℚ) * (4/10))) 75))
    omega
  · rw [hkey]
    show max 0 (min 100 (max (pyRound (p * 60 +
      ((compute_risk_breakdown f m).total : ℚ) * (4/10))) 75)) ≤ 100
    omega

theorem override_flips_verdict_witness :
    3 ≤ ((compute_risk_breakdown sampleRedF sampleRedM).flags.filter
      (fun fl => fl.severity == "red")).length ∧
    (3 : ℚ)/10 < 1/2 ∧
    (composeWithModel (compute_risk_breakdown sampleRedF sampleRedM).total
        (compute_risk_breakdown sampleRedF sampleRedM).flags (3/10) "ml-model").verdict
      = "PHISHING" ∧
    (composeWithModel (compute_risk_breakdown sampleRedF sampleRedM).total
        (compute_risk_breakdown sampleRedF sampleRedM).flags (3/10) "ml-model").engine
      = "ml-model" ++ "+override" :=
  ⟨by decide, by norm_num,
   (override_flips_verdict sampleRedF sampleRedM (3/10) "ml-model"
     (by decide) (by norm_num)).2.1,
   (override_flips_verdict sampleRedF sampleRedM (3/10) "ml-model"
     (by decide) (by norm_num)).2.2.2.2.2.2⟩

/-- Claim C10: in every composition path the returned confidence lies in
[1/2, 1]: the rule-based confidence min(1/2 + t/200, 97/100) lies in
[1/2, 97/100] for t ∈ [0,100]; the model-mode pre-override confidence is p
when p > 1/2 and 1-p otherwise, hence at least 1/2 for p ∈ [0,1]; and the
override can only raise the confidence, never above 1. -/
theorem confidence_within_bounds (t : ℤ) (flags : List Flag) (p : ℚ) (name : String)
    (ht0 : 0 ≤ t) (ht1 : t ≤ 100) (hp0 : 0 ≤ p) (hp1 : p ≤ 1) :
    (1/2 ≤ (composeRuleBased t).confidence ∧ (composeRuleBased t).confidence ≤ 1) ∧
    ((if 1/2 < p then p else 1 - p) ≤ (composeWithModel t flags p name).confidence) ∧
    (1/2 ≤ (composeWithModel t flags p name).confidence ∧
      (composeWithModel t flags p name).confidence ≤ 1) := by
  have hq0 : (0:ℚ) ≤ (t:ℚ) := by exact_mod_cast ht0
  have hc0 : (1:ℚ)/2 ≤ (if 1/2 < p then p else 1 - p) := by
    split
    · linarith
    · rename_i h
      rw [not_lt] at h
      linarith
  have hc1 : (if (1:ℚ)/2 < p then p else 1 - p) ≤ 1 := by
    split <;> linarith
  have hconf : (composeWithModel t flags p name).confidence
        = (if 1/2 < p then p else 1 - p) ∨
      (composeWithModel t flags p name).confidence
        = max (if 1/2 < p then p else 1 - p) (85/100) := by
    unfold composeWithModel
    dsimp only
    split
    · split
      · right; rfl
      · left; rfl
    · split
      · right; rfl
      · left; rfl
  refine ⟨⟨?_, ?_⟩, ?_, ?_, ?_⟩
  · show (1:ℚ)/2 ≤ min (1/2 + (t : ℚ) / 200) (97/100)
    have : (0:ℚ) ≤ (t:ℚ) / 200 := by positivity
    exact le_min (by linarith) (by norm_num)
  · show min (1/2 + (t : ℚ) / 200) (97/100) ≤ 1
    exact (min_le_right _ _).trans (by norm_num)
  · rcases hconf with h | h <;> rw [h]
    exact le_max_left _ _
  · rcases hconf with h | h <;> rw [h]
    · exact hc0
    · exact hc0.trans (le_max_left _ _)
  · rcases hconf with h | h <;> rw [h]
    · exact hc1
    · exact max_le hc1 (by norm_num)

theorem confidence_within_bounds_witness :
    ((1:ℚ)/2 ≤ (composeRuleBased 50).confidence ∧ (composeRuleBased 50).confidence ≤ 1) ∧
    ((if (1:ℚ)/2 < 3/10 then (3:ℚ)/10 else 1 - 3/10)
        ≤ (composeWithModel 50 [] (3/10) "ml-model").confidence) ∧
    ((1:ℚ)/2 ≤ (composeWithModel 50 [] (3/10) "ml-model").confidence ∧
      (composeWithModel 50 [] (3/10) "ml-model").confidence ≤ 1) :=
  confidence_within_bounds 50 [] (3/10) "ml-model"
    (by norm_num) (by norm_num) (by norm_num) (by norm_num)

end PhishGuard
